import Mathlib

/-!
Shallow embedding of the matching core of the RideSplit Match app
(destination-based cost-sharing companion).

Sources embedded here:
* `src/utils/geo.ts` — the geo kernel predicates (`destinationsMatch`,
  `isWithinRadius`).
* `MapView` component — `getDistanceZone` (3-tier proximity zone).
* Firestore layer — `getActiveTrip`, `createOrUpdateTrip`, trip store model.
* `MapPage` (trips/live-location revision) — `goOffline`, `handleToggleOnline`,
  `goOnline`, the `subscribeToMatches` snapshot callback, the live-location
  callback and `updateMatchedUsersDistances`.
* `MapPage` (destination-document revision, the second "go online"
  implementation in the source history) — `goOffline`,
  the `subscribeToMatchingDestinations` snapshot callback, and the position
  watch callback with its publish throttle.

Modelling conventions:
* JS numbers are embedded as rationals (`ℚ`); timestamps as integers (ms).
* The Haversine distance itself is transcendental floating-point math; the
  matching logic only ever *compares* distances with thresholds, so every
  definition is parametrised by the distance function `dist : DistFn`
  standing for `haversineDistance`.  Theorems quantify over `dist`, hence
  hold for the actual Haversine function in particular.
* `JS Infinity` (used for "no live location yet") is embedded as `⊤` in
  `WithTop ℚ`.
* `Array.prototype.sort` with comparator `(a, b) => a.distance - b.distance`
  is a stable sort ordered by the comparator (ECMAScript 2019+; a `NaN`
  comparison result — `⊤ - ⊤` — is treated as `+0`, i.e. "equal").  A stable
  sort by distance is embedded as `List.insertionSort` on `distance ≤`.
* Asynchronous store calls that can fail (`deleteDestination`,
  `createOrUpdateTrip`, `publishLiveLocation`, …) are embedded as boolean
  success parameters; `try`/`catch` becomes a case split on those booleans.
-/

namespace RideSplit

/-- `Coordinates` (src/types/models.ts): `{lat, lng}` in degrees. -/
structure Coordinates where
  lat : ℚ
  lng : ℚ
deriving DecidableEq, Repr

/-- Stand-in type for `haversineDistance : (Coordinates, Coordinates) → meters`.
The numeric value is spherical trigonometry on floats and is kept abstract;
all matching logic below only compares its result with constants. -/
abbrev DistFn := Coordinates → Coordinates → ℚ

/-- `destinationsMatch` (src/utils/geo.ts:45-48):
`haversineDistance(dest1, dest2) <= 500`. -/
def destinationsMatch (dist : DistFn) (dest1 dest2 : Coordinates) : Bool :=
  decide (dist dest1 dest2 ≤ 500)

/-- `isWithinRadius` (src/utils/geo.ts:56-59):
`haversineDistance(myLocation, otherLocation) <= 2000`. -/
def isWithinRadius (dist : DistFn) (myLocation otherLocation : Coordinates) : Bool :=
  decide (dist myLocation otherLocation ≤ 2000)

/-- `DistanceZone` (MapView component): `'very-close' | 'far' | 'very-far'`. -/
inductive DistanceZone
  | veryClose
  | far
  | veryFar
deriving DecidableEq, Repr

/-- `getDistanceZone` (MapView component):
`if (distance <= 500) return 'very-close'; if (distance <= 1000) return 'far';
return 'very-far';` -/
def getDistanceZone (distance : ℚ) : DistanceZone :=
  if distance ≤ 500 then .veryClose
  else if distance ≤ 1000 then .far
  else .veryFar

/-- `UserProfile` (src/types/models.ts). -/
structure UserProfile where
  uid : String
  email : String
  name : String
  gender : String
  phone : String
  createdAt : ℤ
deriving DecidableEq, Repr

/-- `Trip` document data (src/types/models.ts), without the store-assigned
`id` field; ids are carried by the store below. -/
structure Trip where
  uid : String
  gender : String
  destinationName : String
  destinationLat : ℚ
  destinationLng : ℚ
  status : String
  createdAt : ℤ
  updatedAt : ℤ
deriving DecidableEq, Repr

/-- `Destination` document (src/types/models.ts): the active destination
record of one online traveler in the destination-document revision. -/
structure Destination where
  uid : String
  name : String
  gender : String
  destinationName : String
  destinationLat : ℚ
  destinationLng : ℚ
  currentLat : ℚ
  currentLng : ℚ
  phone : String
  createdAt : ℤ
  updatedAt : ℤ
deriving DecidableEq, Repr

/-- The Firestore `trips` collection: documents with their ids.  `nextId`
models the generation of a fresh document id by `addDoc`. -/
structure TripsStore where
  docs : List (Nat × Trip)
  nextId : Nat
deriving DecidableEq, Repr

/-- Well-formedness of the store: document ids are distinct (guaranteed by
Firestore) and below the next fresh id. -/
def TripsStore.WF (store : TripsStore) : Prop :=
  (store.docs.map Prod.fst).Nodup ∧ ∀ d ∈ store.docs, d.1 < store.nextId

/-- The query predicate of `getActiveTrip` (firestore layer):
`where('uid','==',uid), where('status','==','active')`. -/
def isActiveTripOf (uid : String) (d : Nat × Trip) : Bool :=
  d.2.uid == uid && d.2.status == "active"

/-- `getActiveTrip` (firestore layer): the first document matching the
active-trip query for `uid` (`querySnapshot.docs[0]`), or `none`. -/
def getActiveTrip (uid : String) (store : TripsStore) : Option (Nat × Trip) :=
  store.docs.find? (isActiveTripOf uid)

/-- `createOrUpdateTrip` (firestore layer): if an active trip for
`trip.uid` exists, `updateDoc` overwrites that document with the new data
(fresh `updatedAt`) and returns its id; otherwise `addDoc` creates a new
document.  Returns the store after the write and the trip id. -/
def createOrUpdateTrip (now : ℤ) (trip : Trip) (store : TripsStore) :
    TripsStore × Nat :=
  match getActiveTrip trip.uid store with
  | some existing =>
      ({ store with
          docs := store.docs.map (fun d =>
            if d.1 = existing.1 then (d.1, { trip with updatedAt := now }) else d) },
       existing.1)
  | none =>
      ({ docs := store.docs ++ [(store.nextId,
            { trip with createdAt := now, updatedAt := now })],
         nextId := store.nextId + 1 },
       store.nextId)

/-- Number of active trip documents a given traveler has in the store. -/
def activeTripCount (store : TripsStore) (uid : String) : Nat :=
  (store.docs.filter (isActiveTripOf uid)).length

/-- `MatchedUser` of the trips/live-location revision of `MapPage`
(fields as constructed in its `subscribeToMatches`): `liveLocation` starts
`null`, `distance` starts `Infinity` (`⊤`). -/
structure MatchedUser where
  uid : String
  profile : UserProfile
  trip : Trip
  liveLocation : Option Coordinates
  distance : WithTop ℚ
  isNear : Bool
deriving DecidableEq, Repr

/-- `MatchedUser` of the destination-document revision
(src/types/models.ts): carries the candidate's `Destination` document. -/
structure MatchedUserDest where
  uid : String
  profile : UserProfile
  destination : Destination
  distance : WithTop ℚ
  isNear : Bool
deriving DecidableEq, Repr

/-- The comparator of `.sort((a, b) => a.distance - b.distance)`, as the
ordering it realises on the resulting stable sort. -/
def distanceLE (a b : MatchedUser) : Prop := a.distance ≤ b.distance

instance : DecidableRel distanceLE := fun a b =>
  inferInstanceAs (Decidable (a.distance ≤ b.distance))

instance : IsTotal MatchedUser distanceLE :=
  ⟨fun a b => le_total a.distance b.distance⟩

instance : IsTrans MatchedUser distanceLE :=
  ⟨fun _ _ _ hab hbc => le_trans hab hbc⟩

/-- Same comparator on the destination-revision matched users. -/
def distanceLED (a b : MatchedUserDest) : Prop := a.distance ≤ b.distance

instance : DecidableRel distanceLED := fun a b =>
  inferInstanceAs (Decidable (a.distance ≤ b.distance))

instance : IsTotal MatchedUserDest distanceLED :=
  ⟨fun a b => le_total a.distance b.distance⟩

instance : IsTrans MatchedUserDest distanceLED :=
  ⟨fun _ _ _ hab hbc => le_trans hab hbc⟩

/-- `updateMatchedUsersDistances` (MapPage, trips/live-location revision):
recompute `distance`/`isNear` from the new local position for every
candidate that has a live location, then stable-sort by distance. -/
def updateMatchedUsersDistances (dist : DistFn) (myNewLocation : Coordinates)
    (prev : List MatchedUser) : List MatchedUser :=
  (prev.map (fun m =>
    match m.liveLocation with
    | some loc =>
        { m with
            distance := ((dist myNewLocation loc : ℚ) : WithTop ℚ),
            isNear := decide ((dist myNewLocation loc : ℚ) ≤ 2000) }
    | none => m)).insertionSort distanceLE

/-- The filter of the `subscribeToMatches` snapshot callback (MapPage,
trips/live-location revision): keep trips that are not the local user's own
and whose destination matches (within 500 m); no position-based condition. -/
def matchingTripsFilter (dist : DistFn) (selfUid : String)
    (destinationCoords : Coordinates) (trips : List Trip) : List Trip :=
  trips.filter (fun trip =>
    if trip.uid == selfUid then false
    else destinationsMatch dist destinationCoords
      ⟨trip.destinationLat, trip.destinationLng⟩)

/-- `tripsByUid.get uid` after the `forEach` that builds the map:
`Map.set` makes the last write win, so the last matching trip is found. -/
def tripsByUidGet (matchingTrips : List Trip) (uid : String) : Option Trip :=
  matchingTrips.reverse.find? (fun t => t.uid == uid)

/-- The body of the `subscribeToMatches` snapshot callback (MapPage,
trips/live-location revision), as a pure function of the closure state and
of the profile map returned by `getUserProfiles`: the initial matched-user
list (`liveLocation: null`, `distance: Infinity`, `isNear: false`) for the
destination-matched, non-self trips whose uid has a resolved profile.  The
non-null assertions `profiles.get(uid)!` / `tripsByUid.get(uid)!` of the
source always succeed (the uid passed the `has` filter and came from
`matchingTrips`); the `filterMap` returns `none` exactly in those
impossible cases. -/
def computeInitialMatches (dist : DistFn) (selfUid : String)
    (destinationCoords : Coordinates) (profiles : String → Option UserProfile)
    (trips : List Trip) : List MatchedUser :=
  let matchingTrips := matchingTripsFilter dist selfUid destinationCoords trips
  let uids := matchingTrips.map (·.uid)
  (uids.filter (fun uid => (profiles uid).isSome)).filterMap (fun uid =>
    match profiles uid, tripsByUidGet matchingTrips uid with
    | some p, some t =>
        some { uid := uid, profile := p, trip := t, liveLocation := none,
               distance := ⊤, isNear := false }
    | _, _ => none)

/-- The live-location callback of `subscribeMultipleLiveLocations`
(MapPage, trips/live-location revision): update the candidate with the
given uid with its new live location; distance becomes `Infinity` when the
location or the local position is unknown. -/
def applyLiveLocation (dist : DistFn) (myLocation : Option Coordinates)
    (uid : String) (location : Option Coordinates)
    (prev : List MatchedUser) : List MatchedUser :=
  prev.map (fun m =>
    if m.uid == uid then
      match location, myLocation with
      | some loc, some myLoc =>
          { m with liveLocation := some loc,
                   distance := ((dist myLoc loc : ℚ) : WithTop ℚ),
                   isNear := decide ((dist myLoc loc : ℚ) ≤ 2000) }
      | _, _ =>
          { m with liveLocation := location, distance := ⊤, isNear := false }
    else m)

/-- The filter of the `subscribeToMatchingDestinations` snapshot callback
(MapPage, destination-document revision): keep destination documents that
are not the local user's own, whose destination matches (within 500 m),
and whose traveler is currently within 2 km of the local position; a
document is dropped when the local position is unknown. -/
def matchingDestinationsFilter (dist : DistFn) (selfUid : String)
    (destinationCoords : Coordinates) (myLocation : Option Coordinates)
    (destinations : List Destination) : List Destination :=
  destinations.filter (fun dest =>
    if dest.uid == selfUid then false
    else if !(destinationsMatch dist destinationCoords
        ⟨dest.destinationLat, dest.destinationLng⟩) then false
    else
      match myLocation with
      | some myLoc => decide (dist myLoc ⟨dest.currentLat, dest.currentLng⟩ ≤ 2000)
      | none => false)

/-- The body of the `subscribeToMatchingDestinations` snapshot callback
(MapPage, destination-document revision), as a pure function of the
closure state and the profile map: filter, drop uids without a resolved
profile, build matched users with freshly computed distance and `isNear`,
and stable-sort by distance. -/
def computeMatchesDest (dist : DistFn) (selfUid : String)
    (destinationCoords : Coordinates) (myLocation : Option Coordinates)
    (profiles : String → Option UserProfile)
    (destinations : List Destination) : List MatchedUserDest :=
  let matchingDestinations :=
    matchingDestinationsFilter dist selfUid destinationCoords myLocation destinations
  ((matchingDestinations.filter (fun dest => (profiles dest.uid).isSome)).filterMap
    (fun dest =>
      match profiles dest.uid with
      | some p =>
          let distance : WithTop ℚ :=
            match myLocation with
            | some myLoc => ((dist myLoc ⟨dest.currentLat, dest.currentLng⟩ : ℚ) : WithTop ℚ)
            | none => ⊤
          some { uid := dest.uid, profile := p, destination := dest,
                 distance := distance,
                 isNear := decide (distance ≤ (2000 : WithTop ℚ)) }
      | none => none)).insertionSort distanceLED

/-- The user-facing alerts raised by `MapPage` around going on/offline. -/
inductive AlertMsg
  | selectDestinationFirst
  | waitingForLocation
  | failedGoOnline
  | failedGoOffline
deriving DecidableEq, Repr

/-- The React state and refs of `MapPage` (trips/live-location revision)
that the go-online/go-offline/location-watch logic reads and writes. -/
structure SessionState where
  user : Option String
  userProfile : Option UserProfile
  myLocation : Option Coordinates
  destinationName : String
  destinationCoords : Option Coordinates
  isOnline : Bool
  isTogglingOnline : Bool
  currentTripId : Option Nat
  matchedUsers : List MatchedUser
  isLoadingMatches : Bool
  watchActive : Bool
  tripsSubActive : Bool
  liveSubActive : Bool
  lastLocation : Option Coordinates
  lastUpdateTime : ℤ
deriving DecidableEq, Repr

/-- The React state and refs of the destination-document revision of
`MapPage`. -/
structure SessionStateD where
  user : Option String
  userProfile : Option UserProfile
  myLocation : Option Coordinates
  destinationName : String
  destinationCoords : Option Coordinates
  isOnline : Bool
  isTogglingOnline : Bool
  matchedUsers : List MatchedUserDest
  isLoadingMatches : Bool
  watchActive : Bool
  destSubActive : Bool
  lastLocation : Option Coordinates
  lastUpdateTime : ℤ
deriving DecidableEq, Repr

/-- `goOffline` (MapPage, destination-document revision).  `deleteOk`
models whether the awaited `deleteDestination` succeeds.  Returns the
post-state and whether the catch block ran (error logged + alert).  On
failure the steps after the `await` — unsubscribing and clearing the match
list, staged destination and online flag — are skipped. -/
def goOffline (deleteOk : Bool) (s : SessionStateD) : SessionStateD × Bool :=
  match s.user with
  | none => (s, false)
  | some _ =>
      let s1 := { s with isTogglingOnline := true, watchActive := false }
      if deleteOk then
        ({ s1 with
            destSubActive := false
            matchedUsers := []
            destinationName := ""
            destinationCoords := none
            isOnline := false
            isTogglingOnline := false }, false)
      else
        ({ s1 with isTogglingOnline := false }, true)

/-- `goOffline` (MapPage, trips/live-location revision): two awaited
deletes (`removeLiveLocation`, then `deactivateUserTrips`); a failure of
either skips everything after it. -/
def goOfflineTrips (removeLiveOk deactivateOk : Bool) (s : SessionState) :
    SessionState × Bool :=
  match s.user with
  | none => (s, false)
  | some _ =>
      let s1 := { s with isTogglingOnline := true, watchActive := false }
      if removeLiveOk then
        if deactivateOk then
          ({ s1 with
              tripsSubActive := false
              liveSubActive := false
              matchedUsers := []
              currentTripId := none
              isOnline := false
              isTogglingOnline := false }, false)
        else ({ s1 with isTogglingOnline := false }, true)
      else ({ s1 with isTogglingOnline := false }, true)

/-- The outcome of one invocation of the online/offline toggle: the
post-state, the alert shown (if any), and whether a write of the Active
Travel Record (`createOrUpdateTrip` / `publishLiveLocation`) was reached. -/
structure ToggleOutcome where
  state : SessionState
  alert : Option AlertMsg
  publishedRecord : Bool
deriving DecidableEq, Repr

/-- `goOnline` (MapPage, trips/live-location revision).  `createTripOk` /
`publishOk` model the two awaited store writes; `tripId` the id returned
by `createOrUpdateTrip`.  Missing prerequisites make it return silently
(the toggle handler has already alerted in that case). -/
def goOnlineTrips (createTripOk publishOk : Bool) (tripId : Nat)
    (s : SessionState) : ToggleOutcome :=
  if s.user.isNone || s.userProfile.isNone
      || s.destinationCoords.isNone || s.myLocation.isNone then
    { state := s, alert := none, publishedRecord := false }
  else
    let s1 := { s with isTogglingOnline := true, isLoadingMatches := true }
    if createTripOk then
      let s2 := { s1 with currentTripId := some tripId }
      if publishOk then
        { state := { s2 with
              watchActive := true
              tripsSubActive := true
              isOnline := true
              isTogglingOnline := false }
          alert := none
          publishedRecord := true }
      else
        { state := { s2 with isTogglingOnline := false }
          alert := some .failedGoOnline
          publishedRecord := true }
    else
      { state := { s1 with isTogglingOnline := false }
        alert := some .failedGoOnline
        publishedRecord := true }

/-- `handleToggleOnline` (MapPage, trips/live-location revision): while
online, run `goOffline`; while offline, validate the staged destination
and the current position — alerting and returning without any state
change or store write when either is missing — and only then run
`goOnline`. -/
def handleToggleOnline (removeLiveOk deactivateOk createTripOk publishOk : Bool)
    (tripId : Nat) (s : SessionState) : ToggleOutcome :=
  if s.isOnline then
    let r := goOfflineTrips removeLiveOk deactivateOk s
    { state := r.1
      alert := if r.2 then some .failedGoOffline else none
      publishedRecord := false }
  else
    match s.destinationCoords with
    | none =>
        { state := s, alert := some .selectDestinationFirst,
          publishedRecord := false }
    | some _ =>
        match s.myLocation with
        | none =>
            { state := s, alert := some .waitingForLocation,
              publishedRecord := false }
        | some _ => goOnlineTrips createTripOk publishOk tripId s

/-- The `watchPosition` success callback of `startLocationWatch` (MapPage,
trips/live-location revision): the local position always updates; the
sample is published only when it moved more than 10 m from the last
published position or more than 2000 ms elapsed since the last publish
(with no last published position the moved distance is `Infinity`, so the
gate passes); the throttle refs update whenever the gate passes (even if
the publish itself fails and is only logged); the distances of the held
match candidates are recomputed from the new position in every case.
Returns the post-state and whether a publish was issued. -/
def onPositionSample (dist : DistFn) (now : ℤ) (newLocation : Coordinates)
    (s : SessionState) : SessionState × Bool :=
  let s1 := { s with myLocation := some newLocation }
  let gate : Bool :=
    (match s.lastLocation with
     | some last => decide (10 < dist last newLocation)
     | none => true)
    || decide (2000 < now - s.lastUpdateTime)
  let published := gate
    && (s.user.isSome && s.userProfile.isSome && s.destinationCoords.isSome)
  let s2 :=
    if gate then { s1 with lastLocation := some newLocation, lastUpdateTime := now }
    else s1
  ({ s2 with
      matchedUsers := updateMatchedUsersDistances dist newLocation s2.matchedUsers },
   published)

/-! Concrete fixtures used to instantiate the theorems below on explicit
inputs. -/

/-- A distance function assigning 0 everywhere (used where only the
comparison structure matters). -/
def exDistZero : DistFn := fun _ _ => 0

/-- A distance function that is 0 between equal coordinates and 3000 m
otherwise. -/
def exDistFar : DistFn := fun a b => if a = b then 0 else 3000

def exProfileMe : UserProfile :=
  { uid := "me", email := "me@x", name := "Me", gender := "male",
    phone := "010", createdAt := 0 }

def exProfileCand : UserProfile :=
  { uid := "cand", email := "cand@x", name := "Cand", gender := "male",
    phone := "011", createdAt := 0 }

def exProfileA : UserProfile :=
  { uid := "a", email := "a@x", name := "A", gender := "male",
    phone := "012", createdAt := 0 }

def exProfileB : UserProfile :=
  { uid := "b", email := "b@x", name := "B", gender := "male",
    phone := "013", createdAt := 0 }

/-- Profile map resolving exactly `"cand"`. -/
def exProfiles : String → Option UserProfile :=
  fun u => if u == "cand" then some exProfileCand else none

def exTripAlice : Trip :=
  { uid := "alice", gender := "female", destinationName := "Uni",
    destinationLat := 1, destinationLng := 1, status := "active",
    createdAt := 0, updatedAt := 0 }

def exTripCand : Trip :=
  { uid := "cand", gender := "male", destinationName := "Uni",
    destinationLat := 1, destinationLng := 1, status := "active",
    createdAt := 0, updatedAt := 0 }

/-- Candidate destination document whose destination equals the local one
but whose current position is elsewhere. -/
def exDestDocFar : Destination :=
  { uid := "cand", name := "Cand", gender := "male", destinationName := "Uni",
    destinationLat := 1, destinationLng := 1, currentLat := 9, currentLng := 9,
    phone := "011", createdAt := 0, updatedAt := 0 }

def exMatchDCand : MatchedUserDest :=
  { uid := "cand", profile := exProfileCand, destination := exDestDocFar,
    distance := ((5 : ℚ) : WithTop ℚ), isNear := true }

/-- An online session of the destination-document revision. -/
def exStateD : SessionStateD :=
  { user := some "me", userProfile := some exProfileMe,
    myLocation := some ⟨0, 0⟩, destinationName := "Uni",
    destinationCoords := some ⟨1, 1⟩, isOnline := true,
    isTogglingOnline := false, matchedUsers := [exMatchDCand],
    isLoadingMatches := false, watchActive := true, destSubActive := true,
    lastLocation := some ⟨0, 0⟩, lastUpdateTime := 0 }

/-- An offline session of the trips revision with no staged destination. -/
def exStateOff : SessionState :=
  { user := some "me", userProfile := some exProfileMe,
    myLocation := none, destinationName := "",
    destinationCoords := none, isOnline := false,
    isTogglingOnline := false, currentTripId := none, matchedUsers := [],
    isLoadingMatches := false, watchActive := false, tripsSubActive := false,
    liveSubActive := false, lastLocation := none, lastUpdateTime := 0 }

def exMatchA : MatchedUser :=
  { uid := "a", profile := exProfileA, trip := exTripCand,
    liveLocation := some ⟨0, 0⟩, distance := ⊤, isNear := false }

def exMatchB : MatchedUser :=
  { uid := "b", profile := exProfileB, trip := exTripCand,
    liveLocation := some ⟨0, 0⟩, distance := ⊤, isNear := false }

/-- An online session of the trips revision. -/
def exStateOn : SessionState :=
  { user := some "me", userProfile := some exProfileMe,
    myLocation := some ⟨0, 0⟩, destinationName := "Uni",
    destinationCoords := some ⟨1, 1⟩, isOnline := true,
    isTogglingOnline := false, currentTripId := some 0,
    matchedUsers := [exMatchB, exMatchA],
    isLoadingMatches := false, watchActive := true, tripsSubActive := true,
    liveSubActive := true, lastLocation := some ⟨0, 0⟩, lastUpdateTime := 0 }

/-- The empty trips store. -/
def exStoreEmpty : TripsStore := { docs := [], nextId := 0 }

end RideSplit

namespace RideSplit

/-- C1 counterexample: in `goOffline` with the remote delete failing, the
post-state is NOT cleared — the session is still online, the match list and
the staged destination are still present (the error is logged). -/
theorem goOffline_deleteFail_counterexample :
    (goOffline false exStateD).1.isOnline = true ∧
    (goOffline false exStateD).1.matchedUsers ≠ [] ∧
    (goOffline false exStateD).1.destinationCoords ≠ none ∧
    (goOffline false exStateD).2 = true := by
  refine ⟨rfl, ?_, ?_, rfl⟩ <;> simp [goOffline, exStateD]

/-- C1 (amended): a failed delete during `goOffline` is logged, and the GPS
watcher (stopped before the delete) stays stopped, but everything after the
failed `await` is skipped: subscription, match list, staged destination and
online flag are unchanged and the session remains ONLINE.  Only a
successful delete clears the local state. -/
theorem goOffline_deleteFail_keeps_state (s : SessionStateD) (u : String)
    (h : s.user = some u) :
    (goOffline false s).2 = true ∧
    (goOffline false s).1 =
      { s with isTogglingOnline := false, watchActive := false } ∧
    (goOffline true s).1 =
      { s with isTogglingOnline := false, watchActive := false,
               destSubActive := false, matchedUsers := [],
               destinationName := "", destinationCoords := none,
               isOnline := false } := by
  simp [goOffline, h]

/-- Witness for C1's amended theorem at the concrete online session. -/
theorem goOffline_deleteFail_keeps_state_witness :
    (goOffline false exStateD).2 = true ∧
    (goOffline false exStateD).1 =
      { exStateD with isTogglingOnline := false, watchActive := false } ∧
    (goOffline true exStateD).1 =
      { exStateD with isTogglingOnline := false, watchActive := false,
                      destSubActive := false, matchedUsers := [],
                      destinationName := "", destinationCoords := none,
                      isOnline := false } :=
  goOffline_deleteFail_keeps_state exStateD "me" rfl

/-- C4: toggling while offline with no staged destination or no current
position surfaces a precondition alert to the caller, reaches no store
write of an Active Travel Record, and leaves the session state — in
particular the OFFLINE status — completely unchanged; nothing retries. -/
theorem goOnline_precondition_error (rOk dOk cOk pOk : Bool) (tripId : Nat)
    (s : SessionState) (hoff : s.isOnline = false)
    (hmiss : s.destinationCoords = none ∨ s.myLocation = none) :
    (handleToggleOnline rOk dOk cOk pOk tripId s).state = s ∧
    ((handleToggleOnline rOk dOk cOk pOk tripId s).alert =
        some .selectDestinationFirst ∨
     (handleToggleOnline rOk dOk cOk pOk tripId s).alert =
        some .waitingForLocation) ∧
    (handleToggleOnline rOk dOk cOk pOk tripId s).publishedRecord = false ∧
    (handleToggleOnline rOk dOk cOk pOk tripId s).state.isOnline = false := by
  rcases hdc : s.destinationCoords with _ | dc
  · simp [handleToggleOnline, hoff, hdc]
  · rcases hml : s.myLocation with _ | ml
    · simp [handleToggleOnline, hoff, hdc, hml]
    · rcases hmiss with h | h
      · rw [hdc] at h; exact absurd h (by simp)
      · rw [hml] at h; exact absurd h (by simp)

/-- Witness for C4 at a concrete offline session with no staged
destination and no position. -/
theorem goOnline_precondition_error_witness :
    (handleToggleOnline true true true true 0 exStateOff).state = exStateOff ∧
    ((handleToggleOnline true true true true 0 exStateOff).alert =
        some .selectDestinationFirst ∨
     (handleToggleOnline true true true true 0 exStateOff).alert =
        some .waitingForLocation) ∧
    (handleToggleOnline true true true true 0 exStateOff).publishedRecord = false ∧
    (handleToggleOnline true true true true 0 exStateOff).state.isOnline = false :=
  goOnline_precondition_error true true true true 0 exStateOff rfl (Or.inl rfl)

/-- C5: while ONLINE (user, profile and staged destination present, a last
published position on record), a position sample is published exactly when
it moved strictly more than 10 m from the last published position or
strictly more than 2000 ms elapsed since the last publish; in every case —
in particular when both gates fail — the local position becomes the new
sample and the distances of all held match candidates are recomputed from
it. -/
theorem positionSample_throttle (dist : DistFn) (now : ℤ)
    (newLocation : Coordinates) (s : SessionState) (last : Coordinates)
    (hu : s.user.isSome = true) (hp : s.userProfile.isSome = true)
    (hd : s.destinationCoords.isSome = true)
    (hl : s.lastLocation = some last) :
    ((onPositionSample dist now newLocation s).2 = true ↔
      (10 < dist last newLocation ∨ 2000 < now - s.lastUpdateTime)) ∧
    (onPositionSample dist now newLocation s).1.myLocation = some newLocation ∧
    (onPositionSample dist now newLocation s).1.matchedUsers =
      updateMatchedUsersDistances dist newLocation s.matchedUsers := by
  refine ⟨?_, ?_, ?_⟩ <;>
    simp only [onPositionSample, hl, hu, hp, hd, Bool.and_true, Bool.and_self,
      Bool.and_eq_true, Bool.or_eq_true, decide_eq_true_eq] <;>
    split <;> simp_all

/-- Witness for C5: a sample at the same spot 1000 ms after the last
publish fails both gates, is not published, and still updates the local
position and the candidate distances. -/
theorem positionSample_throttle_witness :
    ((onPositionSample exDistZero 1000 ⟨0, 0⟩ exStateOn).2 = true ↔
      ((10:ℚ) < exDistZero ⟨0, 0⟩ ⟨0, 0⟩ ∨
        (2000:ℤ) < 1000 - exStateOn.lastUpdateTime)) ∧
    (onPositionSample exDistZero 1000 ⟨0, 0⟩ exStateOn).1.myLocation =
      some ⟨0, 0⟩ ∧
    (onPositionSample exDistZero 1000 ⟨0, 0⟩ exStateOn).1.matchedUsers =
      updateMatchedUsersDistances exDistZero ⟨0, 0⟩ exStateOn.matchedUsers :=
  positionSample_throttle exDistZero 1000 ⟨0, 0⟩ exStateOn ⟨0, 0⟩
    rfl rfl rfl rfl

/-- In a store with distinct document ids, a document sharing the id of a
member is that member. -/
theorem eq_of_mem_of_nodup_keys {l : List (Nat × Trip)}
    (hnd : (l.map Prod.fst).Nodup) {e d : Nat × Trip}
    (he : e ∈ l) (hdm : d ∈ l) (hid : d.1 = e.1) : d = e := by
  induction l with
  | nil => cases he
  | cons a l ih =>
      rw [List.map_cons, List.nodup_cons] at hnd
      rcases List.mem_cons.mp he with rfl | he' <;>
        rcases List.mem_cons.mp hdm with rfl | hd'
      · rfl
      · exact absurd (List.mem_map.mpr ⟨d, hd', hid⟩) hnd.1
      · exact absurd (List.mem_map.mpr ⟨e, he', hid.symm⟩) hnd.1
      · exact ih hnd.2 he' hd'

/-- C6: `createOrUpdateTrip` preserves well-formedness of the trips store
and the invariant that every traveler has at most one active trip
document: when an active trip for the same traveler already exists, the
existing document is overwritten in place (same id, no new document);
otherwise a fresh document is created for a traveler that had none. -/
theorem createOrUpdateTrip_at_most_one_active (now : ℤ) (trip : Trip)
    (store : TripsStore) (hwf : store.WF)
    (hcount : ∀ u, activeTripCount store u ≤ 1) :
    (createOrUpdateTrip now trip store).1.WF ∧
    ∀ u, activeTripCount (createOrUpdateTrip now trip store).1 u ≤ 1 := by
  rcases hfind : getActiveTrip trip.uid store with _ | e
  · -- no existing active trip: a fresh document is appended
    have hnone : ∀ d ∈ store.docs, ¬ (isActiveTripOf trip.uid d = true) :=
      List.find?_eq_none.mp hfind
    constructor
    · constructor
      · rw [createOrUpdateTrip, hfind]
        simp only [List.map_append, List.map_cons, List.map_nil]
        refine List.Nodup.append hwf.1 (List.nodup_singleton _) ?_
        intro x hx hx'
        rcases List.mem_map.mp hx with ⟨d, hdm, rfl⟩
        exact absurd ((List.mem_singleton.mp hx') ▸ hwf.2 d hdm) (lt_irrefl _)
      · rw [createOrUpdateTrip, hfind]
        intro d hdm
        rcases List.mem_append.mp hdm with hdm' | hdm'
        · exact (hwf.2 d hdm').trans (Nat.lt_succ_self _)
        · rcases List.mem_singleton.mp hdm' with rfl
          exact Nat.lt_succ_self _
    · intro u
      rw [createOrUpdateTrip, hfind]
      simp only [activeTripCount, List.filter_append]
      by_cases hnew : isActiveTripOf u (store.nextId,
          { trip with createdAt := now, updatedAt := now }) = true
      · have hu : trip.uid = u := by
          simp only [isActiveTripOf, Bool.and_eq_true, beq_iff_eq] at hnew
          exact hnew.1
        have hz : (store.docs.filter (isActiveTripOf u)).length = 0 := by
          rw [List.length_eq_zero, List.filter_eq_nil_iff]
          intro d hdm
          exact hu ▸ hnone d hdm
        simp [hz, hnew]
      · simp only [List.filter_cons, hnew, if_false, List.filter_nil,
          List.append_nil, Bool.false_eq_true]
        simpa [activeTripCount] using hcount u
  · -- an existing active trip is updated in place
    have hmem : e ∈ store.docs := List.mem_of_find?_eq_some hfind
    have hact : isActiveTripOf trip.uid e = true := List.find?_some hfind
    constructor
    · constructor
      · rw [createOrUpdateTrip, hfind]
        simp only [List.map_map]
        have hcomp : (Prod.fst ∘ fun d : Nat × Trip =>
            if d.1 = e.1 then (d.1, { trip with updatedAt := now }) else d) =
            Prod.fst := by
          funext d
          by_cases h1 : d.1 = e.1 <;> simp [h1]
        rw [hcomp]
        exact hwf.1
      · rw [createOrUpdateTrip, hfind]
        intro d hdm
        rcases List.mem_map.mp hdm with ⟨d', hdm', rfl⟩
        by_cases h1 : d'.1 = e.1 <;> simp [h1] <;>
          [exact h1 ▸ hwf.2 d' hdm'; exact hwf.2 d' hdm']
    · intro u
      rw [createOrUpdateTrip, hfind]
      simp only [activeTripCount, ← List.countP_eq_length_filter]
      rw [List.countP_map]
      have hcu : List.countP (isActiveTripOf u) store.docs ≤ 1 := by
        simpa [activeTripCount, ← List.countP_eq_length_filter] using hcount u
      refine le_trans (List.countP_mono_left (fun d hdm hpd => ?_)) hcu
      by_cases h1 : d.1 = e.1
      · have hde : d = e := eq_of_mem_of_nodup_keys hwf.1 hmem hdm h1
        simp only [Function.comp_apply, h1, if_pos] at hpd
        simp only [isActiveTripOf, Bool.and_eq_true, beq_iff_eq] at hpd hact ⊢
        exact ⟨hde ▸ (hact.1.trans hpd.1), hde ▸ hact.2⟩
      · simpa [Function.comp_apply, h1] using hpd

/-- Witness for C6: acting on the empty well-formed store, no traveler has
more than one active trip afterwards. -/
theorem createOrUpdateTrip_at_most_one_active_witness :
    activeTripCount (createOrUpdateTrip 5 exTripAlice exStoreEmpty).1 "alice" ≤ 1 :=
  (createOrUpdateTrip_at_most_one_active 5 exTripAlice exStoreEmpty
    ⟨by simp [exStoreEmpty], by simp [exStoreEmpty]⟩
    (fun u => by simp [activeTripCount, exStoreEmpty])).2 "alice"

/-- Membership in the trips filter of the cohort callback implies: the
trip is an input trip, is not the local user's own, and its destination
matches the local destination. -/
theorem mem_matchingTripsFilter {dist : DistFn} {selfUid : String}
    {destCoords : Coordinates} {trips : List Trip} {t : Trip}
    (ht : t ∈ matchingTripsFilter dist selfUid destCoords trips) :
    t ∈ trips ∧ (t.uid == selfUid) = false ∧
      destinationsMatch dist destCoords
        ⟨t.destinationLat, t.destinationLng⟩ = true := by
  rw [matchingTripsFilter, List.mem_filter] at ht
  refine ⟨ht.1, ?_⟩
  by_cases hself : (t.uid == selfUid) = true
  · rw [if_pos hself] at ht
    exact absurd ht.2 (by simp)
  · rw [if_neg hself] at ht
    exact ⟨Bool.not_eq_true _ ▸ hself, ht.2⟩

/-- Every emitted matched user of the trips-revision cohort callback stems
from a trip of the filter and carries its uid and resolved profile. -/
theorem mem_computeInitialMatches {dist : DistFn} {selfUid : String}
    {destCoords : Coordinates} {profiles : String → Option UserProfile}
    {trips : List Trip} {m : MatchedUser}
    (hm : m ∈ computeInitialMatches dist selfUid destCoords profiles trips) :
    (∃ t ∈ matchingTripsFilter dist selfUid destCoords trips, m.uid = t.uid) ∧
      profiles m.uid = some m.profile := by
  simp only [computeInitialMatches, List.mem_filterMap, List.mem_filter,
    List.mem_map] at hm
  rcases hm with ⟨uid, ⟨⟨t, ht, rfl⟩, hps⟩, hmatch⟩
  rcases hp : profiles t.uid with _ | p <;> rw [hp] at hmatch
  · exact absurd hmatch (by simp)
  · rcases htg : tripsByUidGet
        (matchingTripsFilter dist selfUid destCoords trips) t.uid with _ | t' <;>
      rw [htg] at hmatch
    · exact absurd hmatch (by simp)
    · simp only [Option.some.injEq] at hmatch
      subst hmatch
      exact ⟨⟨t, ht, rfl⟩, hp⟩

/-- Membership in the destinations filter of the cohort callback implies:
the document is an input document, is not the local user's own, its
destination matches, and its traveler is within 2 km of the (known) local
position. -/
theorem mem_matchingDestinationsFilter {dist : DistFn} {selfUid : String}
    {destCoords : Coordinates} {myLocation : Option Coordinates}
    {dests : List Destination} {d : Destination}
    (hd : d ∈ matchingDestinationsFilter dist selfUid destCoords myLocation dests) :
    d ∈ dests ∧ (d.uid == selfUid) = false ∧
      destinationsMatch dist destCoords
        ⟨d.destinationLat, d.destinationLng⟩ = true ∧
      ∃ myLoc, myLocation = some myLoc ∧
        dist myLoc ⟨d.currentLat, d.currentLng⟩ ≤ 2000 := by
  rw [matchingDestinationsFilter, List.mem_filter] at hd
  refine ⟨hd.1, ?_⟩
  have hpred := hd.2
  by_cases hself : (d.uid == selfUid) = true
  · rw [if_pos hself] at hpred
    exact absurd hpred (by simp)
  · rw [if_neg hself] at hpred
    by_cases hdm : destinationsMatch dist destCoords
        ⟨d.destinationLat, d.destinationLng⟩ = true
    · rw [hdm] at hpred
      simp only [Bool.not_true, Bool.false_eq_true, if_false] at hpred
      rcases hml : myLocation with _ | myLoc <;> rw [hml] at hpred
      · exact absurd hpred (by simp)
      · exact ⟨Bool.not_eq_true _ ▸ hself, hdm,
          myLoc, rfl, of_decide_eq_true hpred⟩
    · rw [Bool.not_eq_true] at hdm
      rw [hdm] at hpred
      exact absurd hpred (by simp)

/-- Every emitted matched user of the destination-revision cohort callback
stems from a document of the filter and carries its uid and resolved
profile. -/
theorem mem_computeMatchesDest {dist : DistFn} {selfUid : String}
    {destCoords : Coordinates} {myLocation : Option Coordinates}
    {profiles : String → Option UserProfile} {dests : List Destination}
    {m : MatchedUserDest}
    (hm : m ∈ computeMatchesDest dist selfUid destCoords myLocation profiles dests) :
    m.destination ∈
        matchingDestinationsFilter dist selfUid destCoords myLocation dests ∧
      m.uid = m.destination.uid ∧ profiles m.uid = some m.profile := by
  rw [computeMatchesDest, List.mem_insertionSort] at hm
  simp only [List.mem_filterMap, List.mem_filter] at hm
  rcases hm with ⟨dest, ⟨hdm, hps⟩, hmatch⟩
  rcases hp : profiles dest.uid with _ | p <;> rw [hp] at hmatch
  · exact absurd hmatch (by simp)
  · simp only [Option.some.injEq] at hmatch
    subst hmatch
    exact ⟨hdm, rfl, hp⟩

/-- C7: the match candidate list never contains the local user's own
traveler id: neither cohort recomputation (in either revision) emits an
entry whose uid equals the local uid, and the two update passes that touch
an existing list — the distance recomputation on a local position update
and the live-location patch — preserve the list's uids, so the invariant
holds in every reachable state. -/
theorem matchList_never_contains_self :
    (∀ (dist : DistFn) (selfUid : String) (destCoords : Coordinates)
        (profiles : String → Option UserProfile) (trips : List Trip),
      (computeInitialMatches dist selfUid destCoords profiles trips).all
        (fun m => !(m.uid == selfUid)) = true) ∧
    (∀ (dist : DistFn) (selfUid : String) (destCoords : Coordinates)
        (myLocation : Option Coordinates)
        (profiles : String → Option UserProfile) (dests : List Destination),
      (computeMatchesDest dist selfUid destCoords myLocation profiles dests).all
        (fun m => !(m.uid == selfUid)) = true) ∧
    (∀ (dist : DistFn) (loc : Coordinates) (prev : List MatchedUser),
      ((updateMatchedUsersDistances dist loc prev).map (·.uid)).Perm
        (prev.map (·.uid))) ∧
    (∀ (dist : DistFn) (myLocation : Option Coordinates) (uid : String)
        (location : Option Coordinates) (prev : List MatchedUser),
      (applyLiveLocation dist myLocation uid location prev).map (·.uid) =
        prev.map (·.uid)) := by
  refine ⟨?_, ?_, ?_, ?_⟩
  · intro dist selfUid destCoords profiles trips
    rw [List.all_eq_true]
    intro m hm
    rcases mem_computeInitialMatches hm with ⟨⟨t, ht, hmu⟩, _⟩
    have hne := (mem_matchingTripsFilter ht).2.1
    simp [hmu, hne]
  · intro dist selfUid destCoords myLocation profiles dests
    rw [List.all_eq_true]
    intro m hm
    rcases mem_computeMatchesDest hm with ⟨hdm, hmu, _⟩
    have hne := (mem_matchingDestinationsFilter hdm).2.1
    simp [hmu, hne]
  · intro dist loc prev
    rw [updateMatchedUsersDistances]
    refine ((List.perm_insertionSort distanceLE _).map _).trans ?_
    rw [List.map_map]
    rw [List.map_congr_left fun m (_ : m ∈ prev) => ?_]
    cases hml : m.liveLocation <;> simp [Function.comp, hml]
  · intro dist myLocation uid location prev
    rw [applyLiveLocation, List.map_map]
    refine List.map_congr_left fun m _ => ?_
    by_cases h : (m.uid == uid) = true
    · cases location <;> cases myLocation <;> simp [Function.comp, h]
    · simp [Function.comp, h]

/-- C10: both cohort recomputations emit only candidates whose traveler id
resolved to a profile in the `getUserProfiles` result; a destination-matched
candidate whose uid is absent from the profile map is silently dropped. -/
theorem matchList_only_resolved_profiles :
    (∀ (dist : DistFn) (selfUid : String) (destCoords : Coordinates)
        (profiles : String → Option UserProfile) (trips : List Trip),
      (computeInitialMatches dist selfUid destCoords profiles trips).all
        (fun m => (profiles m.uid).isSome) = true) ∧
    (∀ (dist : DistFn) (selfUid : String) (destCoords : Coordinates)
        (myLocation : Option Coordinates)
        (profiles : String → Option UserProfile) (dests : List Destination),
      (computeMatchesDest dist selfUid destCoords myLocation profiles dests).all
        (fun m => (profiles m.uid).isSome) = true) := by
  constructor
  · intro dist selfUid destCoords profiles trips
    rw [List.all_eq_true]
    intro m hm
    rcases mem_computeInitialMatches hm with ⟨_, hp⟩
    simp [hp]
  · intro dist selfUid destCoords myLocation profiles dests
    rw [List.all_eq_true]
    intro m hm
    rcases mem_computeMatchesDest hm with ⟨_, _, hp⟩
    simp [hp]

/-- C2 counterexample: in the destination-document revision the 2 km
cutoff is an eligibility filter, not only a display flag — a candidate
whose destination coincides with the local destination (destinations
match) but whose current position is 3000 m from the local position is
dropped from the emitted match list entirely, despite having a resolved
profile. -/
theorem withinRadius_exclusion_counterexample :
    destinationsMatch exDistFar ⟨1, 1⟩ ⟨1, 1⟩ = true ∧
    (2000 : ℚ) < exDistFar ⟨0, 0⟩ ⟨9, 9⟩ ∧
    exProfiles "cand" = some exProfileCand ∧
    computeMatchesDest exDistFar "me" ⟨1, 1⟩ (some ⟨0, 0⟩) exProfiles
      [exDestDocFar] = [] := by
  refine ⟨by decide, by decide, by decide, by decide⟩

/-- C2 (amended): the 2 km `within_radius` cutoff is only a display flag
in the trips/live-location revision — a destination-matched, non-self trip
with a resolved profile appears in the emitted list regardless of any
position distance — but in the destination-document revision it is a hard
eligibility filter: every emitted candidate there is within 2 km of the
local position. -/
theorem withinRadius_display_vs_eligibility :
    (∀ (dist : DistFn) (selfUid : String) (destCoords : Coordinates)
        (profiles : String → Option UserProfile) (trips : List Trip) (t : Trip),
      t ∈ trips → (t.uid == selfUid) = false →
      destinationsMatch dist destCoords
        ⟨t.destinationLat, t.destinationLng⟩ = true →
      (profiles t.uid).isSome = true →
      t.uid ∈ (computeInitialMatches dist selfUid destCoords profiles trips).map
        (·.uid)) ∧
    (∀ (dist : DistFn) (selfUid : String) (destCoords : Coordinates)
        (myLoc : Coordinates) (profiles : String → Option UserProfile)
        (dests : List Destination),
      (computeMatchesDest dist selfUid destCoords (some myLoc) profiles dests).all
        (fun m => decide (dist myLoc
          ⟨m.destination.currentLat, m.destination.currentLng⟩ ≤ 2000)) = true) := by
  constructor
  · intro dist selfUid destCoords profiles trips t htmem hself hdm hps
    have ht' : t ∈ matchingTripsFilter dist selfUid destCoords trips := by
      rw [matchingTripsFilter, List.mem_filter]
      exact ⟨htmem, by rw [if_neg (by simp [hself])]; exact hdm⟩
    rcases Option.isSome_iff_exists.mp hps with ⟨p, hp⟩
    have htgs : (tripsByUidGet (matchingTripsFilter dist selfUid destCoords trips)
        t.uid).isSome = true := by
      rw [tripsByUidGet, List.find?_isSome]
      exact ⟨t, List.mem_reverse.mpr ht', by simp⟩
    rcases Option.isSome_iff_exists.mp htgs with ⟨t', htg⟩
    simp only [computeInitialMatches, List.mem_map, List.mem_filterMap,
      List.mem_filter]
    refine ⟨{ uid := t.uid, profile := p, trip := t', liveLocation := none,
              distance := ⊤, isNear := false },
            ⟨t.uid, ⟨⟨⟨t, ht', rfl⟩, hps⟩, ?_⟩⟩, rfl⟩
    rw [hp, htg]
  · intro dist selfUid destCoords myLoc profiles dests
    rw [List.all_eq_true]
    intro m hm
    rcases mem_computeMatchesDest hm with ⟨hdm, _, _⟩
    rcases mem_matchingDestinationsFilter hdm with ⟨_, _, _, myLoc', hml, hle⟩
    simp only [Option.some.injEq] at hml
    subst hml
    exact decide_eq_true hle

/-- Witness for C2's amended theorem: with every pair of distinct points
3000 m apart, the destination-matched candidate trip is listed by the
trips-revision recomputation (no position is even consulted). -/
theorem withinRadius_display_vs_eligibility_witness :
    exTripCand.uid ∈
      (computeInitialMatches exDistFar "me" ⟨1, 1⟩ exProfiles
        [exTripCand]).map (·.uid) :=
  withinRadius_display_vs_eligibility.1 exDistFar "me" ⟨1, 1⟩ exProfiles
    [exTripCand] exTripCand (by simp) (by decide) (by decide) (by decide)

/-- C3 counterexample: the sort applies no traveler-id tie-break — two
candidates at the same distance keep their incoming order, so the same
candidate set arriving in the two opposite orders produces two oppositely
ordered lists; in particular the equal-distance entries are not ordered by
traveler id. -/
theorem matchList_tiebreak_counterexample :
    ((updateMatchedUsersDistances exDistZero ⟨0, 0⟩
        [exMatchB, exMatchA]).map (·.uid) = ["b", "a"]) ∧
    ((updateMatchedUsersDistances exDistZero ⟨0, 0⟩
        [exMatchA, exMatchB]).map (·.uid) = ["a", "b"]) ∧
    ((updateMatchedUsersDistances exDistZero ⟨0, 0⟩
        [exMatchB, exMatchA]).map (·.distance) =
      [((0 : ℚ) : WithTop ℚ), ((0 : ℚ) : WithTop ℚ)]) := by
  refine ⟨by decide, by decide, by decide⟩

/-- C3 (amended): after a local position update the match list is sorted
ascending by `distance` (and so is the list emitted by the
destination-revision cohort recomputation); candidates at equal distance
keep their previous relative order — the stable JS sort — rather than
being ordered by traveler id. -/
theorem matchList_sorted_by_distance :
    (∀ (dist : DistFn) (loc : Coordinates) (prev : List MatchedUser),
      List.Sorted distanceLE (updateMatchedUsersDistances dist loc prev)) ∧
    (∀ (dist : DistFn) (selfUid : String) (destCoords : Coordinates)
        (myLocation : Option Coordinates)
        (profiles : String → Option UserProfile) (dests : List Destination),
      List.Sorted distanceLED
        (computeMatchesDest dist selfUid destCoords myLocation profiles dests)) := by
  constructor
  · intro dist loc prev
    exact List.sorted_insertionSort distanceLE _
  · intro dist selfUid destCoords myLocation profiles dests
    exact List.sorted_insertionSort distanceLED _

/-- C8: `destinationsMatch` is exactly the inclusive 500 m cutoff on the
distance, for every distance function (hence for the Haversine distance in
particular) and every pair of coordinates. -/
theorem destinationsMatch_iff_le_500 (dist : DistFn) (d1 d2 : Coordinates) :
    destinationsMatch dist d1 d2 = true ↔ dist d1 d2 ≤ 500 := by
  simp [destinationsMatch]

/-- C9: on non-negative distances, `getDistanceZone` realises the three-way
partition `very-close ↔ d ≤ 500`, `far ↔ 500 < d ≤ 1000`,
`very-far ↔ 1000 < d`; the three conditions are mutually exclusive and
exhaustive, so exactly one zone is assigned at every distance, with both
boundaries inclusive on the lower tier. -/
theorem getDistanceZone_partition (d : ℚ) (_hd : 0 ≤ d) :
    (getDistanceZone d = .veryClose ↔ d ≤ 500) ∧
    (getDistanceZone d = .far ↔ 500 < d ∧ d ≤ 1000) ∧
    (getDistanceZone d = .veryFar ↔ 1000 < d) := by
  unfold getDistanceZone
  split_ifs with h5 h10
  · exact ⟨iff_of_true rfl h5,
      iff_of_false (by decide) (fun h => absurd h5 (not_le.mpr h.1)),
      iff_of_false (by decide) (not_lt.mpr (h5.trans (by norm_num)))⟩
  · exact ⟨iff_of_false (by decide) h5,
      iff_of_true rfl ⟨not_le.mp h5, h10⟩,
      iff_of_false (by decide) (not_lt.mpr h10)⟩
  · exact ⟨iff_of_false (by decide) h5,
      iff_of_false (by decide) (fun h => absurd h.2 h10),
      iff_of_true rfl (not_le.mp h10)⟩

/-- Witness for C9 at the concrete distance 750 m (zone `far`). -/
theorem getDistanceZone_partition_witness :
    getDistanceZone 750 = .far ∧ ((500:ℚ) < 750 ∧ (750:ℚ) ≤ 1000) :=
  ⟨((getDistanceZone_partition 750 (by norm_num)).2.1).mpr (by norm_num),
   by norm_num⟩

end RideSplit
